import Mathlib

/-
  Verification of the hosted-providers e2e helper layer (EKS helpers, p1 suite
  and the GKE chart-support suite) against its natural-language specification.

  The Go sources are shallowly embedded: pure data manipulation becomes Lean
  functions over explicit structures, the management API and the provider CLI
  become explicit function parameters, environment-variable state becomes an
  explicit Env value, and the gomega Eventually poller (library code, not part
  of the repository sources) is modelled from the specification's contract.
-/

namespace HostedE2E

/- ===================== String containment utilities ===================== -/

/-- Boolean test that the first character list occurs at the very start of the second. -/
def leadingMatch : List Char → List Char → Bool
  | [], _ => true
  | _ :: _, [] => false
  | a :: as, b :: bs => a == b && leadingMatch as bs

/-- Boolean test that the pattern occurs contiguously somewhere in the list. -/
def occursIn (pat : List Char) : List Char → Bool
  | [] => leadingMatch pat []
  | b :: bs => leadingMatch pat (b :: bs) || occursIn pat bs

/-- Substring test on strings: strContains s pat is true when pat occurs in s.
This models the gomega ContainSubstring matcher and Go strings.Contains. -/
def strContains (s pat : String) : Bool := occursIn pat.data s.data

theorem leadingMatch_self_append (pat rest : List Char) :
    leadingMatch pat (pat ++ rest) = true := by
  induction pat with
  | nil => simp [leadingMatch]
  | cons a as ih => simp [leadingMatch, ih]

theorem occursIn_of_append (pat pre post : List Char) :
    occursIn pat (pre ++ (pat ++ post)) = true := by
  induction pre with
  | nil =>
    cases h : pat ++ post with
    | nil =>
      have hp : pat = [] := by
        cases pat with
        | nil => rfl
        | cons a as => simp at h
      simp [occursIn, hp, leadingMatch]
    | cons b bs =>
      simp only [List.nil_append, occursIn, h]
      rw [← h, leadingMatch_self_append]
      simp
  | cons c cs ih =>
    simp only [List.cons_append, occursIn, List.append_eq, ih, Bool.or_true]

/-- Any string occurs as a substring of pre ++ it ++ post. -/
theorem strContains_sandwich (pre mid post : String) :
    strContains (pre ++ mid ++ post) mid = true := by
  unfold strContains
  have h := occursIn_of_append mid.data pre.data post.data
  simpa [String.data_append, List.append_assoc] using h

/- ===================== Data model ===================== -/

/-- A named, sized compute pool of an EKS cluster (management.NodeGroup). -/
structure NodeGroup where
  nodegroupName : Option String
  version : Option String
  desiredSize : Option Int
  maxSize : Option Int
  minSize : Option Int
  deriving Repr, DecidableEq

/-- The fields of management.EKSClusterConfigSpec / eks.ClusterConfig that the
claims touch: desired version, node groups, access flags, networking and tags. -/
structure EKSConfig where
  region : String
  kubernetesVersion : Option String
  nodeGroups : List NodeGroup
  publicAccess : Bool
  privateAccess : Bool
  securityGroups : List String
  subnets : List String
  loggingTypes : List String
  tags : List (String × String)
  deriving Repr, DecidableEq

/-- A management.Cluster: desired configuration (EKSConfig), the upstream spec
mirror (EKSStatus.UpstreamSpec) and the transitioning condition fields. -/
structure Cluster where
  id : String
  name : String
  eksConfig : EKSConfig
  upstreamSpec : EKSConfig
  transitioning : String
  transitioningMessage : String
  deriving Repr, DecidableEq

/- ===================== Convergence poller ===================== -/

/-- A (timeout, pollInterval) pair governing a convergence wait, in seconds. -/
structure ConvergenceWindow where
  timeout : Nat
  interval : Nat
  deriving Repr, DecidableEq

/-- Result of one convergence wait: success with the satisfying value and the
number of probe invocations used, or a timeout failure carrying the number of
probe invocations and the last observed value for diagnosis. -/
inductive PollOutcome (α : Type) where
  | converged (value : α) (probes : Nat)
  | timedOut (probes : Nat) (lastObserved : Option α)
  deriving Repr, DecidableEq

/-- Number of samples a window admits: one at time 0 and one every interval
until the deadline, i.e. timeout / interval + 1. -/
def sampleCount (w : ConvergenceWindow) : Nat := w.timeout / w.interval + 1

/-- Modelled from the spec: the convergence poller (the gomega Eventually wait
used by every check site; the poller itself is library code and not present
under src/). It invokes the probe at fixed intervals, returns normally the
first time the probe output satisfies the predicate, and once the deadline
elapses declares a timeout failure carrying the last observed value. -/
def pollAux {α : Type} (probe : Nat → α) (pred : α → Bool) :
    Nat → Nat → Option α → PollOutcome α
  | 0, probes, lastObserved => PollOutcome.timedOut probes lastObserved
  | Nat.succ remaining, probes, _ =>
    let v := probe probes
    if pred v then PollOutcome.converged v (probes + 1)
    else pollAux probe pred remaining (probes + 1) (some v)

/-- Modelled from the spec: run the convergence poller over a window, sampling
at times 0, interval, 2*interval, ... up to the timeout. -/
def poll {α : Type} (probe : Nat → α) (pred : α → Bool) (w : ConvergenceWindow) :
    PollOutcome α :=
  pollAux probe pred (sampleCount w) 0 none

/-- The window of the ScaleNodeGroup upstream-spec wait (15 minutes, every 10 seconds). -/
def scaleNodeGroupWindow : ConvergenceWindow := { timeout := 900, interval := 10 }

/-- The window of the UpgradeClusterKubernetesVersion upstream-spec wait
(15 minutes, every 30 seconds). -/
def upgradeClusterWindow : ConvergenceWindow := { timeout := 900, interval := 30 }

/-- The convergence predicate polled by ScaleNodeGroup (helper_cluster.go
282-292): every upstream node group reports the scaled desired size. -/
def scalePollSatisfied (upstreamNodeGroups : List NodeGroup) (nodeCount : Int) : Bool :=
  upstreamNodeGroups.all (fun ng => ng.desiredSize == some nodeCount)

theorem pollAux_timedOut_probes {α : Type} (probe : Nat → α) (pred : α → Bool) :
    ∀ (fuel probes : Nat) (lastA : Option α) (n : Nat) (lastB : Option α),
      pollAux probe pred fuel probes lastA = PollOutcome.timedOut n lastB →
      n = probes + fuel := by
  intro fuel
  induction fuel with
  | zero =>
    intro probes lastA n lastB h
    simp only [pollAux] at h
    cases h
    omega
  | succ m ih =>
    intro probes lastA n lastB h
    simp only [pollAux] at h
    split at h
    · cases h
    · have := ih (probes + 1) (some (probe probes)) n lastB h
      omega

/-- C1: with interval at most timeout, the convergence poller invokes its probe
at least once and at most ⌈timeout/interval⌉ + 1 times before declaring a
timeout failure. -/
theorem poller_timeout_sample_bounds {α : Type} (probe : Nat → α) (pred : α → Bool)
    (w : ConvergenceWindow) (n : Nat) (lastObserved : Option α)
    (hIT : w.interval ≤ w.timeout)
    (h : poll probe pred w = PollOutcome.timedOut n lastObserved) :
    1 ≤ n ∧ n ≤ (w.timeout + w.interval - 1) / w.interval + 1 := by
  have hn : n = 0 + sampleCount w :=
    pollAux_timedOut_probes probe pred (sampleCount w) 0 none n lastObserved h
  rw [Nat.zero_add] at hn
  unfold sampleCount at hn
  constructor
  · rw [hn]
    exact Nat.succ_le_succ (Nat.zero_le _)
  · rcases Nat.eq_zero_or_pos w.interval with hI | hI
    · rw [hn, hI]
      simp
    · have hle : w.timeout ≤ w.timeout + w.interval - 1 := by omega
      have hdiv := Nat.div_le_div_right (c := w.interval) hle
      rw [hn]
      exact Nat.add_le_add_right hdiv 1

/-- Witness for C1: the ScaleNodeGroup window (900 s, 10 s) with a probe that
never satisfies its target times out after exactly 91 = 900/10 + 1 samples,
within the claimed bounds. -/
theorem poller_timeout_sample_bounds_witness :
    1 ≤ 91 ∧ 91 ≤ (900 + 10 - 1) / 10 + 1 :=
  poller_timeout_sample_bounds (fun _ => ([] : List NodeGroup))
    (fun ngs => scalePollSatisfied ngs 3 && !ngs.isEmpty) scaleNodeGroupWindow
    91 (some []) (by decide) (by decide)

/-- C8: when the very first sample already satisfies the target predicate, the
convergence poller returns success after exactly one probe invocation and
performs no further sampling. -/
theorem poller_first_sample_converged {α : Type} (probe : Nat → α) (pred : α → Bool)
    (w : ConvergenceWindow) (h : pred (probe 0) = true) :
    poll probe pred w = PollOutcome.converged (probe 0) 1 := by
  unfold poll
  rw [show sampleCount w = Nat.succ (w.timeout / w.interval) from rfl]
  simp [pollAux, h]

/-- A node group already scaled to 3 nodes, used to instantiate the poller claims. -/
def scaledNodeGroup : NodeGroup :=
  { nodegroupName := some "ranchernodes", version := some "1.29",
    desiredSize := some 3, maxSize := some 3, minSize := some 1 }

/-- Witness for C8: an already-scaled node group list makes the ScaleNodeGroup
poll succeed on its first sample. -/
theorem poller_first_sample_converged_witness :
    poll (fun _ => [scaledNodeGroup]) (fun ngs => scalePollSatisfied ngs 3)
      scaleNodeGroupWindow = PollOutcome.converged [scaledNodeGroup] 1 :=
  poller_first_sample_converged _ _ _ (by decide)

/- ===================== Desired-state mutations (helper layer) ===================== -/

/-- Embeds the desired-config mutation of ScaleNodeGroup (helper_cluster.go
258-263): set both DesiredSize and MaxSize of every node group to nodeCount. -/
def scaleNodeGroupConfig (cfg : EKSConfig) (nodeCount : Int) : EKSConfig :=
  let scaled := cfg.nodeGroups.map
    (fun ng => { ng with desiredSize := some nodeCount, maxSize := some nodeCount })
  { cfg with nodeGroups := scaled }

/-- Embeds the desired-config mutation of DeleteNodeGroup (helper_cluster.go
220-223): the node-group list is replaced by its one-element head slice
NodeGroups[:1]. -/
def deleteNodeGroupConfig (cfg : EKSConfig) : EKSConfig :=
  { cfg with nodeGroups := cfg.nodeGroups.take 1 }

/-- Embeds the post-update check of DeleteNodeGroup (helper_cluster.go 230):
the submitted list length must equal the original length minus one. -/
def deleteNodeGroupPostCheck (cfg : EKSConfig) : Bool :=
  (deleteNodeGroupConfig cfg).nodeGroups.length == cfg.nodeGroups.length - 1

/-- C9: ScaleNodeGroup sets both DesiredSize and MaxSize of every node group in
the desired configuration to nodeCount; MaxSize does not remain unchanged. -/
theorem scaleNodeGroup_sets_desired_and_max (cfg : EKSConfig) (nodeCount : Int)
    (ng : NodeGroup) (hng : ng ∈ (scaleNodeGroupConfig cfg nodeCount).nodeGroups) :
    ng.desiredSize = some nodeCount ∧ ng.maxSize = some nodeCount := by
  simp only [scaleNodeGroupConfig, List.mem_map] at hng
  obtain ⟨ng0, _, rfl⟩ := hng
  exact ⟨rfl, rfl⟩

/-- A two-node-group configuration used to instantiate the scaling and deletion claims. -/
def twoNodeGroupConfig : EKSConfig :=
  { region := "us-east-1", kubernetesVersion := some "1.29",
    nodeGroups :=
      [{ nodegroupName := some "ng-a", version := some "1.29",
         desiredSize := some 2, maxSize := some 10, minSize := some 1 },
       { nodegroupName := some "ng-b", version := some "1.29",
         desiredSize := some 2, maxSize := some 10, minSize := some 1 }],
    publicAccess := true, privateAccess := false,
    securityGroups := [], subnets := [], loggingTypes := [], tags := [] }

/-- Witness for C9: scaling the two-node-group configuration to 5 sets both
sizes of its first node group to 5. -/
theorem scaleNodeGroup_sets_desired_and_max_witness :
    ({ nodegroupName := some "ng-a", version := some "1.29",
       desiredSize := some 5, maxSize := some 5, minSize := some 1 } : NodeGroup).desiredSize
        = some 5 ∧
    ({ nodegroupName := some "ng-a", version := some "1.29",
       desiredSize := some 5, maxSize := some 5, minSize := some 1 } : NodeGroup).maxSize
        = some 5 :=
  scaleNodeGroup_sets_desired_and_max twoNodeGroupConfig 5 _
    (by simp [scaleNodeGroupConfig, twoNodeGroupConfig])

/-- C10: for a desired configuration with n ≥ 1 node groups, DeleteNodeGroup
always keeps exactly the first node group (length 1), and its post-update
length check n-1 can only succeed when n = 2. -/
theorem deleteNodeGroup_keeps_first_only (cfg : EKSConfig) (n : Nat)
    (hlen : cfg.nodeGroups.length = n) (hpos : 1 ≤ n) :
    (deleteNodeGroupConfig cfg).nodeGroups.length = 1 ∧
    (deleteNodeGroupPostCheck cfg = true ↔ n = 2) := by
  have h1 : (deleteNodeGroupConfig cfg).nodeGroups.length = 1 := by
    simp only [deleteNodeGroupConfig, List.length_take]
    omega
  refine ⟨h1, ?_⟩
  unfold deleteNodeGroupPostCheck
  rw [h1, hlen]
  simp only [beq_iff_eq]
  omega

/-- Witness for C10: on the two-node-group configuration the deletion keeps one
node group and the post-update check succeeds exactly because n = 2. -/
theorem deleteNodeGroup_keeps_first_only_witness :
    (deleteNodeGroupConfig twoNodeGroupConfig).nodeGroups.length = 1 ∧
    (deleteNodeGroupPostCheck twoNodeGroupConfig = true ↔ 2 = 2) :=
  deleteNodeGroup_keeps_first_only twoNodeGroupConfig 2 (by decide) (by decide)

/- ===================== Synchronous API rejections ===================== -/

/-- The rejection message asserted by invalidAccessValuesCheck (p1_suite_test.go 270). -/
def eksAccessValidationMsg : String := "public access, private access, or both must be enabled"

/-- The rejection message asserted in "Fail to create cluster with only Security groups". -/
def eksSubnetsValidationMsg : String := "subnets must be provided if security groups are provided"

/-- Modelled from the spec: the management API's synchronous validation of an
EKS access update (the API itself is not under src/): a desired configuration
disabling both public and private access is rejected immediately. -/
def eksUpdateAPI (desired : Cluster) : Except String Cluster :=
  if desired.eksConfig.publicAccess || desired.eksConfig.privateAccess then
    Except.ok desired
  else Except.error eksAccessValidationMsg

/-- Embeds UpdateAccess (helper_cluster.go 323-343): writes both access flags
into the desired configuration and submits it; the second component records
whether the convergence poll (the Eventually block) is entered, which happens
exactly when checkClusterConfig is set. -/
def updateAccess (updateAPI : Cluster → Except String Cluster) (cluster : Cluster)
    (publicAccess privateAccess checkClusterConfig : Bool) :
    Except String Cluster × Bool :=
  let newConfig :=
    { cluster.eksConfig with publicAccess := publicAccess, privateAccess := privateAccess }
  let desired := { cluster with eksConfig := newConfig }
  (updateAPI desired, checkClusterConfig)

/-- C3: submitting a desired configuration with both access flags false (the
invalidAccessValuesCheck call UpdateAccess(.., false, false, false)) fails with
an immediate synchronous error containing "must be enabled", and no convergence
poll is entered, so the failure is distinguishable from a convergence timeout. -/
theorem updateAccess_both_disabled_sync_rejection (cluster : Cluster) :
    (updateAccess eksUpdateAPI cluster false false false).1 =
      Except.error eksAccessValidationMsg ∧
    strContains eksAccessValidationMsg "must be enabled" = true ∧
    (updateAccess eksUpdateAPI cluster false false false).2 = false := by
  refine ⟨?_, by decide, rfl⟩
  simp [updateAccess, eksUpdateAPI]

/-- Modelled from the spec: the management API's synchronous validation at EKS
cluster creation (the API itself is not under src/): a configuration listing
security groups but no subnets is rejected immediately; otherwise the cluster
resource is created with the submitted desired configuration. -/
def eksCreateAPI (displayName : String) (cfg : EKSConfig) : Except String Cluster :=
  if cfg.securityGroups ≠ [] ∧ cfg.subnets = [] then
    Except.error eksSubnetsValidationMsg
  else
    Except.ok { id := displayName, name := displayName, eksConfig := cfg,
                upstreamSpec := cfg, transitioning := "", transitioningMessage := "" }

/-- Embeds CreateEKSHostedCluster (helper_cluster.go 30-41): starts from the
base configuration loaded from the test config file, overrides region, tags and
kubernetes version, applies updateFunc when given, and submits the result. -/
def createEKSHostedCluster (api : String → EKSConfig → Except String Cluster)
    (baseConfig : EKSConfig) (displayName kubernetesVersion region : String)
    (tags : List (String × String)) (updateFunc : Option (EKSConfig → EKSConfig)) :
    Except String Cluster :=
  let cfg :=
    { baseConfig with region := region, tags := tags, kubernetesVersion := some kubernetesVersion }
  let cfg := match updateFunc with
    | some f => f cfg
    | none => cfg
  api displayName cfg

/-- Outcome of a provisioning test step: a synchronous rejection ends the
scenario at once, while a successful creation is followed by the
WaitUntilClusterIsReady convergence wait. -/
inductive CreateOutcome where
  | syncRejected (msg : String)
  | readyWaitEntered (cluster : Cluster)
  deriving Repr, DecidableEq

/-- Embeds the provisioning flow of the p1 suite around CreateEKSHostedCluster:
only a successfully created cluster enters a convergence wait. -/
def provisionAttempt (api : String → EKSConfig → Except String Cluster)
    (baseConfig : EKSConfig) (displayName kubernetesVersion region : String)
    (tags : List (String × String)) (updateFunc : Option (EKSConfig → EKSConfig)) :
    CreateOutcome :=
  match createEKSHostedCluster api baseConfig displayName kubernetesVersion region
      tags updateFunc with
  | Except.error msg => CreateOutcome.syncRejected msg
  | Except.ok cluster => CreateOutcome.readyWaitEntered cluster

/-- C4: creating a cluster whose configuration lists security groups but no
subnets (the updateFunc of "Fail to create cluster with only Security groups")
is rejected synchronously with a message containing "subnets must be provided
if security groups are provided", and no convergence wait is entered. -/
theorem create_with_sg_only_sync_rejected (baseConfig : EKSConfig) (sg : List String)
    (displayName kubernetesVersion region : String) (tags : List (String × String))
    (hsg : sg ≠ []) (hsub : baseConfig.subnets = []) :
    provisionAttempt eksCreateAPI baseConfig displayName kubernetesVersion region tags
        (some (fun cfg => { cfg with securityGroups := sg })) =
      CreateOutcome.syncRejected eksSubnetsValidationMsg ∧
    strContains eksSubnetsValidationMsg
        "subnets must be provided if security groups are provided" = true := by
  refine ⟨?_, by decide⟩
  simp [provisionAttempt, createEKSHostedCluster, eksCreateAPI, hsg, hsub]

/-- Witness for C4: the concrete invalid creation request is synchronously
rejected with the subnets message. -/
theorem create_with_sg_only_sync_rejected_witness :
    provisionAttempt eksCreateAPI twoNodeGroupConfig "hp-cluster" "1.29" "us-east-1" []
        (some (fun cfg => { cfg with securityGroups := ["sg-aaaa", "sg-bbbb"] })) =
      CreateOutcome.syncRejected eksSubnetsValidationMsg ∧
    strContains eksSubnetsValidationMsg
        "subnets must be provided if security groups are provided" = true :=
  create_with_sg_only_sync_rejected twoNodeGroupConfig ["sg-aaaa", "sg-bbbb"]
    "hp-cluster" "1.29" "us-east-1" [] (by decide) (by decide)

/- ===================== Duplicate node-group names (C5) ===================== -/

/-- Boolean test that some value occurs twice in the list. -/
def listHasDup : List (Option String) → Bool
  | [] => false
  | x :: xs => xs.contains x || listHasDup xs

/-- Whether the configuration has two node groups sharing a name. -/
def ngNamesHaveDup (cfg : EKSConfig) : Bool :=
  listHasDup (cfg.nodeGroups.map (fun ng => ng.nodegroupName))

/-- Modelled from the spec: the two message variants of the downstream
rejection of duplicate node-group names; the wording depends on the operator
version (a known external-system versioning quirk). -/
def dupRejectMessage (newOperator : Bool) : String :=
  if newOperator then "NodePool names must be unique within the cluster to avoid duplication"
  else "nodegroup name is not unique within the cluster"

/-- Modelled from the spec: the downstream system rejects a configuration with
duplicate node-group names by moving the cluster into a transitioning error
state carrying a version-dependent message, rather than accepting it. -/
def downstreamDupNameReject (cluster : Cluster) (newOperator : Bool) : Cluster :=
  if ngNamesHaveDup cluster.eksConfig then
    { cluster with transitioning := "error",
                   transitioningMessage := dupRejectMessage newOperator }
  else cluster

/-- Embeds the detection predicate of "should fail to provision a cluster with
duplicate nodegroup names" (p1 suite): transitioning must be "error" and the
message must contain either acceptable substring. -/
def dupNgErrorDetected (cluster : Cluster) : Bool :=
  cluster.transitioning == "error" &&
    (strContains cluster.transitioningMessage "is not unique within the cluster" ||
     strContains cluster.transitioningMessage "NodePool names must be unique")

/-- Embeds the node-group list construction of AddNodeGroupToConfig
(helper_cluster.go 201-214): ngCount copies of the first template node group,
each with a fresh name, prepended in turn (so the original groups are dropped). -/
def buildNewNodeGroups (tpl : NodeGroup) (freshName : Nat → String) : Nat → List NodeGroup
  | 0 => []
  | Nat.succ m => { tpl with nodegroupName := some (freshName (m + 1)) } ::
      buildNewNodeGroups tpl freshName m

/-- Embeds AddNodeGroupToConfig (helper_cluster.go 201-214); none when the
template list is empty (the Go code would panic on ngTemplate[0]). -/
def addNodeGroupToConfig (cfg : EKSConfig) (ngCount : Nat) (freshName : Nat → String) :
    Option EKSConfig :=
  match cfg.nodeGroups.head? with
  | none => none
  | some tpl => some { cfg with nodeGroups := buildNewNodeGroups tpl freshName ngCount }

/-- Embeds the updateFunc of the duplicate-names test: two node groups from the
template, then every name overwritten with "duplicate" (prepending reverses). -/
def dupNameUpdateFunc (cfg : EKSConfig) (freshName : Nat → String) : Option EKSConfig :=
  (addNodeGroupToConfig cfg 2 freshName).map (fun cfg2 =>
    let renamed := cfg2.nodeGroups.map (fun ng => { ng with nodegroupName := some "duplicate" })
    { cfg2 with nodeGroups := renamed.reverse })

/-- C5: a configuration with two node groups sharing a name is rejected by the
downstream system — the cluster reaches a transitioning error state — and under
either operator-version message the test detection predicate accepts, since it
matches a set of acceptable substrings; the two variant messages differ. -/
theorem dup_nodegroup_rejected_and_detected (cluster : Cluster) (newOperator : Bool)
    (hdup : ngNamesHaveDup cluster.eksConfig = true) :
    (downstreamDupNameReject cluster newOperator).transitioning = "error" ∧
    dupNgErrorDetected (downstreamDupNameReject cluster newOperator) = true ∧
    dupRejectMessage true ≠ dupRejectMessage false := by
  refine ⟨?_, ?_, by decide⟩
  · simp [downstreamDupNameReject, hdup]
  · cases newOperator <;>
      simp only [downstreamDupNameReject, hdup, if_true, dupNgErrorDetected,
        dupRejectMessage, Bool.if_false_left, Bool.if_true_left] <;>
      decide

/-- The duplicate-names cluster built by the test construction from the
two-node-group template configuration. -/
def dupNamesCluster : Cluster :=
  { id := "c-test", name := "hp-dup",
    eksConfig := (dupNameUpdateFunc twoNodeGroupConfig (fun i => "ng" ++ toString i)).getD
      twoNodeGroupConfig,
    upstreamSpec := twoNodeGroupConfig, transitioning := "", transitioningMessage := "" }

/-- Witness for C5: the constructed duplicate-names cluster is rejected and the
detection predicate accepts it under the new-operator message. -/
theorem dup_nodegroup_rejected_and_detected_witness :
    (downstreamDupNameReject dupNamesCluster true).transitioning = "error" ∧
    dupNgErrorDetected (downstreamDupNameReject dupNamesCluster true) = true ∧
    dupRejectMessage true ≠ dupRejectMessage false :=
  dup_nodegroup_rejected_and_detected dupNamesCluster true (by decide)

/- ===================== Version comparison in upgrade polls (C2) ===================== -/

/-- Embeds the matcher of the version-upgrade convergence polls
(UpgradeClusterKubernetesVersion, helper_cluster.go 87-92, and
syncK8sVersionUpgradeCheck, p1_suite_test.go 115-120): the gomega Equal
matcher on the observed and desired version strings. -/
def upgradePollMatches (observed upgradeToVersion : String) : Bool :=
  observed == upgradeToVersion

/-- Split a character list on the dot character. -/
def splitOnDot : List Char → List (List Char)
  | [] => [[]]
  | c :: cs =>
    let rest := splitOnDot cs
    if c == '.' then [] :: rest
    else match rest with
      | [] => [[c]]
      | r :: rs => (c :: r) :: rs

/-- Value of a decimal digit character. -/
def decimalDigit (c : Char) : Option Nat :=
  if c == '0' then some 0 else if c == '1' then some 1 else if c == '2' then some 2
  else if c == '3' then some 3 else if c == '4' then some 4 else if c == '5' then some 5
  else if c == '6' then some 6 else if c == '7' then some 7 else if c == '8' then some 8
  else if c == '9' then some 9 else none

/-- Accumulate a decimal numeral. -/
def decimalValueAux (acc : Nat) : List Char → Option Nat
  | [] => some acc
  | c :: cs =>
    match decimalDigit c with
    | some d => decimalValueAux (acc * 10 + d) cs
    | none => none

/-- Numeric value of a nonempty digit list. -/
def decimalValue : List Char → Option Nat
  | [] => none
  | c :: cs => decimalValueAux 0 (c :: cs)

/-- Parse a "major.minor" version string such as "1.29" into its numeric parts. -/
def parseMajorMinor (s : String) : Option (Nat × Nat) :=
  match splitOnDot s.data with
  | [a, b] =>
    match decimalValue a, decimalValue b with
    | some x, some y => some (x, y)
    | _, _ => none
  | _ => none

/-- Modelled from the spec: the "upgrade satisfied" check the specification
prescribes — the observed version must be numerically at least the desired
minor version, not merely string-equal to it. -/
def upgradeSatisfiedOrdering (observed desired : String) : Bool :=
  match parseMajorMinor observed, parseMajorMinor desired with
  | some (oMaj, oMin), some (dMaj, dMin) =>
    decide (dMaj < oMaj) || (dMaj == oMaj && decide (dMin ≤ oMin))
  | _, _ => observed == desired

/-- C2 counterexample: at observed "1.30" against desired "1.29" the numeric
ordering the claim prescribes is satisfied, yet the matcher actually used by
the upgrade convergence polls rejects, because it is exact string equality —
the polls do rely on string equality, contrary to the claim. -/
theorem upgradePoll_uses_string_equality_cex :
    upgradePollMatches "1.30" "1.29" = false ∧
    upgradeSatisfiedOrdering "1.30" "1.29" = true ∧
    upgradePollMatches "1.30" "1.30" = true := by decide

/-- C2 amended: the version-upgrade convergence polls compare the observed
upstream version to the desired version by exact string equality, accepting
exactly when the two strings are equal (numeric ordering is not used there). -/
theorem upgradePollMatches_iff_string_eq (observed upgradeToVersion : String) :
    upgradePollMatches observed upgradeToVersion = true ↔ observed = upgradeToVersion := by
  simp [upgradePollMatches]

/- ===================== Provider CLI wrappers (C6, C7) ===================== -/

/-- A provider-CLI invocation (proc.RunW): from the full argument vector to the
captured combined output and, for a non-zero exit, an error description. -/
abbrev CmdRun := List String → String × Option String

/-- Process environment as seen through os.Getenv (unset reads as ""). -/
abbrev Env := String → String

/-- os.Setenv on the environment. -/
def envSet (env : Env) (key value : String) : Env :=
  fun k => if k = key then value else env k

/-- The eksctl argument vector of CreateEKSClusterOnAWS (helper_cluster.go 472-475). -/
def createClusterArgs (region clusterName k8sVersion nodes formattedTags : String)
    (extraArgs : List String) : List String :=
  ["create", "cluster", "--region=" ++ region, "--name=" ++ clusterName,
   "--version=" ++ k8sVersion, "--nodegroup-name", "ranchernodes", "--nodes", nodes,
   "--tags", formattedTags] ++ extraArgs

/-- Embeds CreateEKSClusterOnAWS (helper_cluster.go 464-484): saves KUBECONFIG,
lets helpers.SetTempKubeConfig mutate the environment (passed here as an
arbitrary mutation, since that helper is outside src/), runs eksctl, wraps a
failure via errors.Wrap with "Failed to create cluster: " plus the captured
output, and restores KUBECONFIG through the deferred Setenv on every exit path.
The tag formatting of k8slabels.SelectorFromSet is received pre-applied as
formattedTags. -/
def createEKSClusterOnAWS (run : CmdRun) (setTempKubeconfig : Env → Env) (env : Env)
    (region clusterName k8sVersion nodes formattedTags : String)
    (extraArgs : List String) : Option String × Env :=
  let currentKubeconfig := env "KUBECONFIG"
  let env1 := setTempKubeconfig env
  let res : Option String :=
    match run ("eksctl" ::
        createClusterArgs region clusterName k8sVersion nodes formattedTags extraArgs) with
    | (out, some errText) => some ("Failed to create cluster: " ++ out ++ ": " ++ errText)
    | (_, none) => none
  (res, envSet env1 "KUBECONFIG" currentKubeconfig)

/-- The shell pipeline string built by GetFromEKS (helper_cluster.go 533-551). -/
def getFromEKSCmd (region clusterName cmd query : String) (extraArgs : List String) : String :=
  let clusterArgs := ["eksctl", "get", "cluster", "--region=" ++ region,
    "--name=" ++ clusterName, "-ojson"]
  let ngArgs := ["eksctl", "get", "nodegroup", "--region=" ++ region,
    "--cluster=" ++ clusterName, "-ojson"]
  let queryArgs := ["|", "jq", "-r", query]
  if cmd == "cluster" then String.intercalate " " (clusterArgs ++ extraArgs ++ queryArgs)
  else String.intercalate " " (ngArgs ++ extraArgs ++ queryArgs)

/-- Drop leading whitespace characters. -/
def dropLeadingSpace : List Char → List Char
  | [] => []
  | c :: cs => if c.isWhitespace then dropLeadingSpace cs else c :: cs

/-- strings.TrimSpace: remove leading and trailing whitespace. -/
def strTrim (s : String) : String :=
  String.mk ((dropLeadingSpace ((dropLeadingSpace s.data).reverse)).reverse)

/-- Split a character list on the newline character. -/
def splitOnNewline : List Char → List (List Char)
  | [] => [[]]
  | c :: cs =>
    let rest := splitOnNewline cs
    if c == '\n' then [] :: rest
    else match rest with
      | [] => [[c]]
      | r :: rs => (c :: r) :: rs

/-- strings.Split(s, "\n"): the newline-separated pieces of a string. -/
def splitLines (s : String) : List String :=
  (splitOnNewline s.data).map String.mk

/-- Embeds GetFromEKS (helper_cluster.go 532-556): runs the pipeline through
bash and returns the trimmed captured output together with the error of the
invocation, passed through as-is. -/
def getFromEKS (run : CmdRun) (region clusterName cmd query : String)
    (extraArgs : List String) : String × Option String :=
  let p := run ["bash", "-c", getFromEKSCmd region clusterName cmd query extraArgs]
  (strTrim p.1, p.2)

/-- The eksctl argument vector of UpgradeEKSClusterOnAWS (helper_cluster.go 490). -/
def upgradeClusterArgs (region clusterName upgradeToVersion : String) : List String :=
  ["upgrade", "cluster", "--region=" ++ region, "--name=" ++ clusterName,
   "--version=" ++ upgradeToVersion, "--approve"]

/-- Embeds UpgradeEKSClusterOnAWS (helper_cluster.go 487-499): a failure is
wrapped with "Failed to upgrade cluster: " plus the captured output. -/
def upgradeEKSClusterOnAWS (run : CmdRun) (region clusterName upgradeToVersion : String) :
    Option String :=
  match run ("eksctl" :: upgradeClusterArgs region clusterName upgradeToVersion) with
  | (out, some errText) => some ("Failed to upgrade cluster: " ++ out ++ ": " ++ errText)
  | (_, none) => none

/-- The eksctl argument vector of AddNodeGroupOnAWS (helper_cluster.go 504-507). -/
def addNodeGroupArgs (nodeName clusterName region : String) (extraArgs : List String) :
    List String :=
  ["create", "nodegroup", "--region=" ++ region, "--cluster", clusterName,
   "--name", nodeName] ++ extraArgs

/-- Embeds AddNodeGroupOnAWS (helper_cluster.go 502-516): a failure is wrapped
with "Failed to add nodegroup: " plus the captured output. -/
def addNodeGroupOnAWS (run : CmdRun) (nodeName clusterName region : String)
    (extraArgs : List String) : Option String :=
  match run ("eksctl" :: addNodeGroupArgs nodeName clusterName region extraArgs) with
  | (out, some errText) => some ("Failed to add nodegroup: " ++ out ++ ": " ++ errText)
  | (_, none) => none

/-- The eksctl argument vector of UpgradeEKSNodegroupOnAWS (helper_cluster.go 521). -/
def upgradeNodegroupArgs (region clusterName ngName upgradeToVersion : String) :
    List String :=
  ["upgrade", "nodegroup", "--region=" ++ region, "--name=" ++ ngName,
   "--cluster=" ++ clusterName, "--kubernetes-version=" ++ upgradeToVersion]

/-- Embeds UpgradeEKSNodegroupOnAWS (helper_cluster.go 519-530): a failure is
wrapped with "Failed to upgrade nodegroup: " plus the captured output. -/
def upgradeEKSNodegroupOnAWS (run : CmdRun)
    (region clusterName ngName upgradeToVersion : String) : Option String :=
  match run ("eksctl" :: upgradeNodegroupArgs region clusterName ngName upgradeToVersion) with
  | (out, some errText) => some ("Failed to upgrade nodegroup: " ++ out ++ ": " ++ errText)
  | (_, none) => none

/-- The eksctl argument vector of ModifyEKSNodegroupOnAWS (helper_cluster.go
560-564): delete operations add --disable-eviction before the extra arguments. -/
def modifyNodegroupArgs (region clusterName ngName operation : String)
    (extraArgs : List String) : List String :=
  let args := [operation, "nodegroup", "--region=" ++ region, "--name=" ++ ngName,
    "--cluster=" ++ clusterName]
  let args := if operation == "delete" then args ++ ["--disable-eviction"] else args
  args ++ extraArgs

/-- Embeds ModifyEKSNodegroupOnAWS (helper_cluster.go 559-571): a failure is
wrapped with "Failed to modify nodegroup: " plus the captured output. -/
def modifyEKSNodegroupOnAWS (run : CmdRun) (region clusterName ngName operation : String)
    (extraArgs : List String) : Option String :=
  match run ("eksctl" :: modifyNodegroupArgs region clusterName ngName operation extraArgs) with
  | (out, some errText) => some ("Failed to modify nodegroup: " ++ out ++ ": " ++ errText)
  | (_, none) => none

/-- The node-group deletion loop of DeleteEKSClusterOnAWS (helper_cluster.go
590-595), returning early on the first wrapped failure. -/
def deleteNodegroupsOnAWS (run : CmdRun) (region clusterName : String) :
    List String → Option String
  | [] => none
  | ngName :: rest =>
    match modifyEKSNodegroupOnAWS run region clusterName ngName "delete" ["--wait"] with
    | some e => some ("Failed to delete nodegroup: " ++ e)
    | none => deleteNodegroupsOnAWS run region clusterName rest

/-- The eksctl argument vector of the final cluster deletion in
DeleteEKSClusterOnAWS (helper_cluster.go 600). -/
def deleteClusterArgs (region clusterName : String) : List String :=
  ["delete", "cluster", "--region=" ++ region, "--name=" ++ clusterName]

/-- Embeds DeleteEKSClusterOnAWS (helper_cluster.go 574-610): saves KUBECONFIG,
points it at the downstream kubeconfig (whose variable name comes from
helpers.DownstreamKubeconfig, outside src/, passed as downstreamKubeconfigVar),
performs the CLI steps with an early return on each failure, and restores
KUBECONFIG through the deferred block that runs on every exit path. -/
def deleteEKSClusterOnAWS (run : CmdRun) (downstreamKubeconfigVar : String → String)
    (env : Env) (region clusterName : String) : Option String × Env :=
  let currentKubeconfig := env "KUBECONFIG"
  let downstreamKubeconfig := env (downstreamKubeconfigVar clusterName)
  let env1 := envSet env "KUBECONFIG" downstreamKubeconfig
  let res : Option String :=
    match getFromEKS run region clusterName "nodegroup" ".[].Name" [] with
    | (_, some e) => some ("Failed to list nodegroup for deletion: " ++ e)
    | (ngNames, none) =>
      let ngStep :=
        if ngNames == "" then none
        else deleteNodegroupsOnAWS run region clusterName (splitLines ngNames)
      match ngStep with
      | some e => some e
      | none =>
        match run ("eksctl" :: deleteClusterArgs region clusterName) with
        | (out, some e) => some ("Failed to delete cluster: " ++ out ++ ": " ++ e)
        | (_, none) => none
  (res, envSet env1 "KUBECONFIG" currentKubeconfig)

/-- C7: both KUBECONFIG-mutating operations restore the variable on every exit
path: after CreateEKSClusterOnAWS (for any behaviour of SetTempKubeConfig and
of the CLI) and after DeleteEKSClusterOnAWS (for any CLI behaviour, so on
success and on each failure path) KUBECONFIG equals its value before the call. -/
theorem kubeconfig_restored_on_all_paths (run : CmdRun) (setTempKubeconfig : Env → Env)
    (downstreamKubeconfigVar : String → String) (env : Env)
    (region clusterName k8sVersion nodes formattedTags : String)
    (extraArgs : List String) :
    (createEKSClusterOnAWS run setTempKubeconfig env region clusterName k8sVersion
        nodes formattedTags extraArgs).2 "KUBECONFIG" = env "KUBECONFIG" ∧
    (deleteEKSClusterOnAWS run downstreamKubeconfigVar env region clusterName).2
        "KUBECONFIG" = env "KUBECONFIG" := by
  constructor
  · simp [createEKSClusterOnAWS, envSet]
  · simp [deleteEKSClusterOnAWS, envSet]

/-- C6 counterexample: a CLI invocation that exits non-zero with captured
output "captured eksctl output" makes GetFromEKS return the raw error
"exit status 1", which does not include the captured output — GetFromEKS does
not return an annotated error, contrary to the claim. -/
def cexRun : CmdRun := fun _ => ("captured eksctl output", some "exit status 1")

/-- C6 counterexample theorem: see cexRun. -/
theorem getFromEKS_unannotated_error_cex :
    getFromEKS cexRun "us-east-1" "hp-cluster" "cluster" ".[].Name" [] =
      ("captured eksctl output", some "exit status 1") ∧
    strContains "exit status 1" "captured eksctl output" = false := by
  constructor
  · rfl
  · decide

/-- C6 amended: a non-zero CLI exit is never silently swallowed, and every
eksctl mutation wrapper — CreateEKSClusterOnAWS, UpgradeEKSClusterOnAWS,
AddNodeGroupOnAWS, UpgradeEKSNodegroupOnAWS, ModifyEKSNodegroupOnAWS, and both
eksctl deletion steps of DeleteEKSClusterOnAWS (nodegroup deletion and cluster
deletion) — returns an error annotated with the captured output of the failing
invocation; GetFromEKS instead propagates the CLI error unannotated, returning
the trimmed captured output separately, and consequently the nodegroup-listing
failure path of DeleteEKSClusterOnAWS surfaces an error without the captured
output. -/
theorem cli_failure_never_swallowed
    (runC runU runA runN runM runD1 runD2 runD3 runG : CmdRun)
    (setTempKubeconfig : Env → Env) (downstreamKubeconfigVar : String → String)
    (env : Env) (region clusterName k8sVersion nodes formattedTags : String)
    (nodeName ngName operation upgradeToVersion cmd query : String)
    (extraArgs aExtraArgs mExtraArgs gExtraArgs : List String)
    (outC eC outU eU outA eA outN eN outM eM : String)
    (outL1 outD eD outL2 outM2 eM2 outL3 eL3 outG eG : String)
    (ngFirst : String) (ngRest : List String)
    (hC : runC ("eksctl" ::
        createClusterArgs region clusterName k8sVersion nodes formattedTags extraArgs) =
      (outC, some eC))
    (hU : runU ("eksctl" :: upgradeClusterArgs region clusterName upgradeToVersion) =
      (outU, some eU))
    (hA : runA ("eksctl" :: addNodeGroupArgs nodeName clusterName region aExtraArgs) =
      (outA, some eA))
    (hN : runN ("eksctl" :: upgradeNodegroupArgs region clusterName ngName upgradeToVersion) =
      (outN, some eN))
    (hM : runM ("eksctl" :: modifyNodegroupArgs region clusterName ngName operation mExtraArgs) =
      (outM, some eM))
    (hD1List : runD1 ["bash", "-c", getFromEKSCmd region clusterName "nodegroup" ".[].Name" []] =
      (outL1, none))
    (hD1Empty : strTrim outL1 = "")
    (hD1Del : runD1 ("eksctl" :: deleteClusterArgs region clusterName) = (outD, some eD))
    (hD2List : runD2 ["bash", "-c", getFromEKSCmd region clusterName "nodegroup" ".[].Name" []] =
      (outL2, none))
    (hD2NonEmpty : (strTrim outL2 == "") = false)
    (hD2Split : splitLines (strTrim outL2) = ngFirst :: ngRest)
    (hD2Mod : runD2 ("eksctl" :: modifyNodegroupArgs region clusterName ngFirst "delete" ["--wait"]) =
      (outM2, some eM2))
    (hD3List : runD3 ["bash", "-c", getFromEKSCmd region clusterName "nodegroup" ".[].Name" []] =
      (outL3, some eL3))
    (hG : runG ["bash", "-c", getFromEKSCmd region clusterName cmd query gExtraArgs] =
      (outG, some eG)) :
    ((createEKSClusterOnAWS runC setTempKubeconfig env region clusterName k8sVersion nodes
        formattedTags extraArgs).1 =
      some ("Failed to create cluster: " ++ outC ++ ": " ++ eC) ∧
      strContains ("Failed to create cluster: " ++ outC ++ ": " ++ eC) outC = true) ∧
    (upgradeEKSClusterOnAWS runU region clusterName upgradeToVersion =
      some ("Failed to upgrade cluster: " ++ outU ++ ": " ++ eU) ∧
      strContains ("Failed to upgrade cluster: " ++ outU ++ ": " ++ eU) outU = true) ∧
    (addNodeGroupOnAWS runA nodeName clusterName region aExtraArgs =
      some ("Failed to add nodegroup: " ++ outA ++ ": " ++ eA) ∧
      strContains ("Failed to add nodegroup: " ++ outA ++ ": " ++ eA) outA = true) ∧
    (upgradeEKSNodegroupOnAWS runN region clusterName ngName upgradeToVersion =
      some ("Failed to upgrade nodegroup: " ++ outN ++ ": " ++ eN) ∧
      strContains ("Failed to upgrade nodegroup: " ++ outN ++ ": " ++ eN) outN = true) ∧
    (modifyEKSNodegroupOnAWS runM region clusterName ngName operation mExtraArgs =
      some ("Failed to modify nodegroup: " ++ outM ++ ": " ++ eM) ∧
      strContains ("Failed to modify nodegroup: " ++ outM ++ ": " ++ eM) outM = true) ∧
    ((deleteEKSClusterOnAWS runD1 downstreamKubeconfigVar env region clusterName).1 =
      some ("Failed to delete cluster: " ++ outD ++ ": " ++ eD) ∧
      strContains ("Failed to delete cluster: " ++ outD ++ ": " ++ eD) outD = true) ∧
    ((deleteEKSClusterOnAWS runD2 downstreamKubeconfigVar env region clusterName).1 =
      some ("Failed to delete nodegroup: " ++
        ("Failed to modify nodegroup: " ++ outM2 ++ ": " ++ eM2)) ∧
      strContains ("Failed to delete nodegroup: " ++
        ("Failed to modify nodegroup: " ++ outM2 ++ ": " ++ eM2)) outM2 = true) ∧
    ((deleteEKSClusterOnAWS runD3 downstreamKubeconfigVar env region clusterName).1 =
      some ("Failed to list nodegroup for deletion: " ++ eL3)) ∧
    getFromEKS runG region clusterName cmd query gExtraArgs = (strTrim outG, some eG) := by
  refine ⟨⟨?_, ?_⟩, ⟨?_, ?_⟩, ⟨?_, ?_⟩, ⟨?_, ?_⟩, ⟨?_, ?_⟩, ⟨?_, ?_⟩, ⟨?_, ?_⟩, ?_, ?_⟩
  · simp [createEKSClusterOnAWS, hC]
  · have h := strContains_sandwich "Failed to create cluster: " outC (": " ++ eC)
    simpa [String.append_assoc] using h
  · simp [upgradeEKSClusterOnAWS, hU]
  · have h := strContains_sandwich "Failed to upgrade cluster: " outU (": " ++ eU)
    simpa [String.append_assoc] using h
  · simp [addNodeGroupOnAWS, hA]
  · have h := strContains_sandwich "Failed to add nodegroup: " outA (": " ++ eA)
    simpa [String.append_assoc] using h
  · simp [upgradeEKSNodegroupOnAWS, hN]
  · have h := strContains_sandwich "Failed to upgrade nodegroup: " outN (": " ++ eN)
    simpa [String.append_assoc] using h
  · simp [modifyEKSNodegroupOnAWS, hM]
  · have h := strContains_sandwich "Failed to modify nodegroup: " outM (": " ++ eM)
    simpa [String.append_assoc] using h
  · simp [deleteEKSClusterOnAWS, getFromEKS, hD1List, hD1Empty, hD1Del]
  · have h := strContains_sandwich "Failed to delete cluster: " outD (": " ++ eD)
    simpa [String.append_assoc] using h
  · simp [deleteEKSClusterOnAWS, getFromEKS, deleteNodegroupsOnAWS, modifyEKSNodegroupOnAWS,
      hD2List, hD2NonEmpty, hD2Split, hD2Mod]
  · have h := strContains_sandwich
      ("Failed to delete nodegroup: " ++ "Failed to modify nodegroup: ") outM2 (": " ++ eM2)
    simpa [String.append_assoc] using h
  · simp [deleteEKSClusterOnAWS, getFromEKS, hD3List]
  · simp [getFromEKS, hG]

/-- CLI behaviour for the create-step instance of the C6 amended theorem. -/
def c6RunCreate : CmdRun := fun _ => ("create output", some "exit status 1")

/-- CLI behaviour for the upgrade-cluster instance of the C6 amended theorem. -/
def c6RunUpgrade : CmdRun := fun _ => ("upgrade output", some "exit status 1")

/-- CLI behaviour for the add-nodegroup instance of the C6 amended theorem. -/
def c6RunAddNg : CmdRun := fun _ => ("addng output", some "exit status 1")

/-- CLI behaviour for the upgrade-nodegroup instance of the C6 amended theorem. -/
def c6RunUpgNg : CmdRun := fun _ => ("upgng output", some "exit status 1")

/-- CLI behaviour for the modify-nodegroup instance of the C6 amended theorem. -/
def c6RunModify : CmdRun := fun _ => ("modify output", some "exit status 1")

/-- CLI behaviour where listing finds no nodegroups and the cluster deletion fails. -/
def c6RunDeleteEmpty : CmdRun := fun args =>
  if args.head? = some "bash" then ("", none) else ("delete output", some "exit status 1")

/-- CLI behaviour where listing finds two nodegroups and the first deletion fails. -/
def c6RunDeleteNg : CmdRun := fun args =>
  if args.head? = some "bash" then ("ng-one\nng-two", none)
  else ("modify output", some "exit status 1")

/-- CLI behaviour where the nodegroup listing itself fails. -/
def c6RunListFail : CmdRun := fun _ => ("list output", some "exit status 3")

/-- CLI behaviour for the GetFromEKS instance of the C6 amended theorem. -/
def c6RunQuery : CmdRun := fun _ => ("query output", some "exit status 2")

/-- Witness for the C6 amended theorem at concrete failing CLI behaviours for
every wrapper. -/
theorem cli_failure_never_swallowed_witness :
    ((createEKSClusterOnAWS c6RunCreate id (fun _ => "") "us-east-1" "hp-cluster" "1.29"
        "3" "owner=hp" []).1 =
      some ("Failed to create cluster: " ++ "create output" ++ ": " ++ "exit status 1") ∧
      strContains ("Failed to create cluster: " ++ "create output" ++ ": " ++ "exit status 1")
        "create output" = true) ∧
    (upgradeEKSClusterOnAWS c6RunUpgrade "us-east-1" "hp-cluster" "1.30" =
      some ("Failed to upgrade cluster: " ++ "upgrade output" ++ ": " ++ "exit status 1") ∧
      strContains ("Failed to upgrade cluster: " ++ "upgrade output" ++ ": " ++ "exit status 1")
        "upgrade output" = true) ∧
    (addNodeGroupOnAWS c6RunAddNg "ng-new" "hp-cluster" "us-east-1" [] =
      some ("Failed to add nodegroup: " ++ "addng output" ++ ": " ++ "exit status 1") ∧
      strContains ("Failed to add nodegroup: " ++ "addng output" ++ ": " ++ "exit status 1")
        "addng output" = true) ∧
    (upgradeEKSNodegroupOnAWS c6RunUpgNg "us-east-1" "hp-cluster" "ranchernodes" "1.30" =
      some ("Failed to upgrade nodegroup: " ++ "upgng output" ++ ": " ++ "exit status 1") ∧
      strContains ("Failed to upgrade nodegroup: " ++ "upgng output" ++ ": " ++ "exit status 1")
        "upgng output" = true) ∧
    (modifyEKSNodegroupOnAWS c6RunModify "us-east-1" "hp-cluster" "ranchernodes" "delete"
        ["--wait"] =
      some ("Failed to modify nodegroup: " ++ "modify output" ++ ": " ++ "exit status 1") ∧
      strContains ("Failed to modify nodegroup: " ++ "modify output" ++ ": " ++ "exit status 1")
        "modify output" = true) ∧
    ((deleteEKSClusterOnAWS c6RunDeleteEmpty (fun n => n ++ "_KUBECONFIG") (fun _ => "")
        "us-east-1" "hp-cluster").1 =
      some ("Failed to delete cluster: " ++ "delete output" ++ ": " ++ "exit status 1") ∧
      strContains ("Failed to delete cluster: " ++ "delete output" ++ ": " ++ "exit status 1")
        "delete output" = true) ∧
    ((deleteEKSClusterOnAWS c6RunDeleteNg (fun n => n ++ "_KUBECONFIG") (fun _ => "")
        "us-east-1" "hp-cluster").1 =
      some ("Failed to delete nodegroup: " ++
        ("Failed to modify nodegroup: " ++ "modify output" ++ ": " ++ "exit status 1")) ∧
      strContains ("Failed to delete nodegroup: " ++
        ("Failed to modify nodegroup: " ++ "modify output" ++ ": " ++ "exit status 1"))
        "modify output" = true) ∧
    ((deleteEKSClusterOnAWS c6RunListFail (fun n => n ++ "_KUBECONFIG") (fun _ => "")
        "us-east-1" "hp-cluster").1 =
      some ("Failed to list nodegroup for deletion: " ++ "exit status 3")) ∧
    getFromEKS c6RunQuery "us-east-1" "hp-cluster" "cluster" ".[].Name" [] =
      (strTrim "query output", some "exit status 2") :=
  cli_failure_never_swallowed c6RunCreate c6RunUpgrade c6RunAddNg c6RunUpgNg c6RunModify
    c6RunDeleteEmpty c6RunDeleteNg c6RunListFail c6RunQuery id (fun n => n ++ "_KUBECONFIG")
    (fun _ => "") "us-east-1" "hp-cluster" "1.29" "3" "owner=hp" "ng-new" "ranchernodes"
    "delete" "1.30" "cluster" ".[].Name" [] [] ["--wait"] []
    "create output" "exit status 1" "upgrade output" "exit status 1"
    "addng output" "exit status 1" "upgng output" "exit status 1"
    "modify output" "exit status 1" "" "delete output" "exit status 1"
    "ng-one\nng-two" "modify output" "exit status 1" "list output" "exit status 3"
    "query output" "exit status 2" "ng-one" ["ng-two"]
    (by rfl) (by rfl) (by rfl) (by rfl) (by rfl)
    (by rfl) (by rfl) (by rfl)
    (by rfl) (by decide) (by decide) (by rfl)
    (by rfl) (by rfl)

end HostedE2E
